import Mathlib

/-!
Verification of the try-job / Buildbucket integrator (`tryjobs` package).

The definitions below are a shallow embedding of the Go source in
`src/unnamed/part_005`.  Remote RPCs and database reads are modelled by
explicit oracle values describing the response the remote service or the
database returns; each integrator routine becomes a pure function from its
inputs and oracles to a trace recording the actions it performed (RPC calls,
database writes, local mutations) and the value it returned.  Machine
integers (int64) are modelled as `Int`; Go errors are `Option String`
(`none` = nil); nil-able pointers to structured Buildbucket errors are
`Option BBError`.
-/

set_option autoImplicit false

namespace Tryjobs

/-! ### Constants from the source -/

/-- Source: `LEASE_BATCH_SIZE = 200`. -/
def LEASE_BATCH_SIZE : Nat := 200

/-- Source: `BUILDBUCKET_API_ERROR_REASON_COMPLETED = "BUILD_IS_COMPLETED"`. -/
def BUILDBUCKET_API_ERROR_REASON_COMPLETED : String := "BUILD_IS_COMPLETED"

/-- Source: `BUILDBUCKET_API_ERROR_REASON_INVALID_INPUT = "INVALID_INPUT"`. -/
def BUILDBUCKET_API_ERROR_REASON_INVALID_INPUT : String := "INVALID_INPUT"

/-- Source: `BUILDBUCKET_API_ERROR_REASON_LEASE_EXPIRED = "LEASE_EXPIRED"`. -/
def BUILDBUCKET_API_ERROR_REASON_LEASE_EXPIRED : String := "LEASE_EXPIRED"

/-- Source: `buildAlreadyStartedErr`, the substring Buildbucket returns when
`StartBuild` is called twice for the same build. -/
def buildAlreadyStartedErr : String := "has recorded another StartBuild with request id"

/-- Source: `buildAlreadyFinishedErr`, the substring Buildbucket returns when
`UpdateBuild` is called after the build has finished. -/
def buildAlreadyFinishedErr : String := "cannot update an ended build"

/-- Go `strings.Contains s sub`: `sub` occurs as a contiguous substring of
`s`.  Implemented on the character lists of the two strings. -/
def strContainsSub (s sub : String) : Bool :=
  s.data.tails.any (fun t => List.isPrefixOf sub.data t)

/-! ### Data model

The `types.Job` record itself lives outside `src/` (only this integrator,
its caller, is given), so the record is reconstructed here. -/

/-- Modelled from the spec: job status enum (spec section 3); REQUESTED and
IN_PROGRESS are non-terminal, all others terminal. -/
inductive JobStatus where
  | requested
  | inProgress
  | success
  | failure
  | mishap
  | canceled
deriving DecidableEq, Repr

/-- Modelled from the spec: terminal statuses are SUCCESS, FAILURE, MISHAP,
CANCELED (spec glossary). -/
def JobStatus.isTerminal : JobStatus → Bool
  | .requested => false
  | .inProgress => false
  | _ => true

/-- Modelled from the spec: the optional patch descriptor of a repo-state
(server, issue id, patchset id, source repo), spec section 3. -/
structure Patch where
  server : String := ""
  issue : String := ""
  patchRepo : String := ""
  patchset : String := ""
deriving DecidableEq, Repr

/-- Modelled from the spec: repo-state = repository URL, revision, optional
patch descriptor (spec section 3). -/
structure RepoState where
  patch : Patch := {}
  repo : String := ""
  revision : String := ""
deriving DecidableEq, Repr

/-- Modelled from the spec: `types.Job` is not under `src/`.  Fields are the
ones named by the spec data model (section 3) together with those the
`tryjobs` module reads or writes: identity, Buildbucket build id, lease key
(legacy protocol), update token and pub/sub topic (async protocol), name,
repo-state, status, status details, the three timestamps, the is-force flag
and the task dependency graph. -/
structure Job where
  id : String := ""
  name : String := ""
  buildbucketBuildId : Int := 0
  buildbucketLeaseKey : Int := 0
  buildbucketToken : String := ""
  buildbucketPubSubTopic : String := ""
  repoState : RepoState := {}
  status : JobStatus := .requested
  statusDetails : String := ""
  requested : Int := 0
  created : Int := 0
  finished : Int := 0
  isForce : Bool := false
  dependencies : List (String × List String) := []
deriving DecidableEq, Repr

/-- Modelled from the spec: `types.Job.Done` is not under `src/`; a job is
done iff its status is terminal (spec section 3). -/
def Job.done (j : Job) : Bool :=
  j.status.isTerminal

/-- Source: `isBBv2` returns true iff the Job was triggered using
Buildbucket V2 (presence of a pub/sub topic). -/
def isBBv2 (j : Job) : Bool :=
  j.buildbucketPubSubTopic != ""

/-- A structured Buildbucket error (`LegacyApiErrorMessage`): a reason code
and a message. -/
structure BBError where
  reason : String := ""
  message : String := ""
deriving DecidableEq, Repr

/-! ### getActiveTryJobs (source lines 211-223) -/

/-- Source, line 218: the filter deciding which cached jobs are returned by
`getActiveTryJobs`:
`(job.BuildbucketLeaseKey != 0 || job.BuildbucketToken != "") && job.Status != types.JOB_STATUS_REQUESTED`. -/
def activeTryJobFilter (job : Job) : Bool :=
  (job.buildbucketLeaseKey != 0 || job.buildbucketToken != "") && job.status != JobStatus.requested

/-- Source: `getActiveTryJobs` keeps exactly the cached jobs passing
`activeTryJobFilter` (the cache contents are the input list). -/
def getActiveTryJobs (jobs : List Job) : List Job :=
  jobs.filter activeTryJobFilter

/-- The condition of claim C5 read with standard operator precedence (AND
binding tighter than OR): non-zero lease key, OR (non-empty update token AND
status not REQUESTED). -/
def specActiveC5 (job : Job) : Bool :=
  job.buildbucketLeaseKey != 0 || (job.buildbucketToken != "" && job.status != JobStatus.requested)

/-- A job holding a fresh lease but still REQUESTED: exactly what the intake
poller creates (`insertNewJobV1` persists status REQUESTED with the lease
key attached). -/
def c5Job : Job :=
  { id := "j5", buildbucketBuildId := 42, buildbucketLeaseKey := 7, status := .requested }

/-- Claim C5, counterexample: a REQUESTED job with a non-zero lease key
satisfies the claimed condition (read with its stated operator structure)
but is not included by `getActiveTryJobs`. -/
theorem getActiveTryJobs_precedence_cex :
    specActiveC5 c5Job = true ∧ getActiveTryJobs [c5Job] = [] := by
  decide

/-- Claim C5 as amended: `getActiveTryJobs` includes a job iff it is in the
cache and (its lease key is non-zero OR its update token is non-empty) AND
its status is not REQUESTED. -/
theorem getActiveTryJobs_members (jobs : List Job) (job : Job) :
    job ∈ getActiveTryJobs jobs ↔
      job ∈ jobs ∧
        ((job.buildbucketLeaseKey ≠ 0 ∨ job.buildbucketToken ≠ "") ∧
          job.status ≠ JobStatus.requested) := by
  simp only [getActiveTryJobs, List.mem_filter, activeTryJobFilter, Bool.and_eq_true,
    Bool.or_eq_true, bne_iff_ne, ne_eq]

/-- Witness for the amended claim C5: an in-progress job holding only a
lease key is included. -/
theorem getActiveTryJobs_members_applied :
    { id := "w5", buildbucketLeaseKey := 3, status := .inProgress : Job } ∈
      getActiveTryJobs [{ id := "w5", buildbucketLeaseKey := 3, status := .inProgress }] :=
  (getActiveTryJobs_members _ _).mpr
    ⟨by decide, Or.inl (by decide), by decide⟩

/-! ### localCancelJobs (source lines 488-504) -/

/-- Source, lines 492-498: the per-job mutation performed by
`localCancelJobs`: zero the lease key, set status CANCELED, set the status
details to the per-job reason, and stamp the finished time with the current
time.  No other field is written. -/
def cancelJob (j : Job) (reason : String) (tnow : Int) : Job :=
  { j with
    buildbucketLeaseKey := 0
    status := JobStatus.canceled
    statusDetails := reason
    finished := tnow }

/-- Source: `localCancelJobs` errors out (before mutating anything) when the
jobs and reasons lists have different lengths; otherwise it applies
`cancelJob` to each (job, reason) pair and persists the batch (the database
write is modelled as succeeding). -/
def localCancelJobsM (jobs : List Job) (reasons : List String) (tnow : Int) :
    Except String (List Job) :=
  if jobs.length ≠ reasons.length then
    .error "expected jobs and reasons to have the same length"
  else
    .ok ((jobs.zip reasons).map (fun p => cancelJob p.1 p.2 tnow))

/-- Claim C10: when the lengths match, `localCancelJobs` rewrites each job
with `cancelJob`, which sets exactly the lease key, status, status details
and finished timestamp, and leaves every other field — in particular the
update token — unchanged. -/
theorem localCancelJobs_frame (jobs : List Job) (reasons : List String) (tnow : Int)
    (h : jobs.length = reasons.length) :
    localCancelJobsM jobs reasons tnow =
      .ok ((jobs.zip reasons).map (fun p => cancelJob p.1 p.2 tnow)) ∧
    ∀ j r,
      (cancelJob j r tnow).buildbucketLeaseKey = 0 ∧
      (cancelJob j r tnow).status = JobStatus.canceled ∧
      (cancelJob j r tnow).statusDetails = r ∧
      (cancelJob j r tnow).finished = tnow ∧
      (cancelJob j r tnow).buildbucketToken = j.buildbucketToken ∧
      (cancelJob j r tnow).id = j.id ∧
      (cancelJob j r tnow).name = j.name ∧
      (cancelJob j r tnow).buildbucketBuildId = j.buildbucketBuildId ∧
      (cancelJob j r tnow).buildbucketPubSubTopic = j.buildbucketPubSubTopic ∧
      (cancelJob j r tnow).repoState = j.repoState ∧
      (cancelJob j r tnow).requested = j.requested ∧
      (cancelJob j r tnow).created = j.created ∧
      (cancelJob j r tnow).isForce = j.isForce ∧
      (cancelJob j r tnow).dependencies = j.dependencies := by
  refine ⟨by simp [localCancelJobsM, h], ?_⟩
  intro j r
  simp [cancelJob]

/-- Witness for claim C10: a canceled async job keeps its update token. -/
theorem localCancelJobs_frame_applied :
    localCancelJobsM [{ id := "jw", buildbucketToken := "tok1" }] ["boom"] 5 =
      .ok [cancelJob { id := "jw", buildbucketToken := "tok1" } "boom" 5] ∧
    (cancelJob { id := "jw", buildbucketToken := "tok1" : Job } "boom" 5).buildbucketToken =
      "tok1" := by
  refine ⟨(localCancelJobs_frame [{ id := "jw", buildbucketToken := "tok1" }] ["boom"] 5
    (by decide)).1, ?_⟩
  exact ((localCancelJobs_frame [{ id := "jw", buildbucketToken := "tok1" }] ["boom"] 5
    (by decide)).2 { id := "jw", buildbucketToken := "tok1" } "boom").2.2.2.2.1

/-! ### jobFinished and the finished-job pass of updateJobs
(source lines 263-279, 909-1021) -/

/-- Oracle describing what the remote service answers to the terminal
notification for one job: `v2Err` is the error (nil or not) returned by the
Buildbucket V2 `UpdateBuild` / `CancelBuild` call, `pubsubErr` the error of
the pub/sub publish that follows a successful V2 call, and `v1` the outcome
of the legacy `Succeed` / `Fail` RPC: a transport error, or a response whose
`Error` field is nil or a structured `BBError`. -/
inductive V1Resp where
  /-- The RPC itself failed (Go `err != nil`). -/
  | transportErr (msg : String)
  /-- The RPC succeeded; the response carries `Error` (nil or structured). -/
  | resp (e : Option BBError)
deriving DecidableEq, Repr

structure FinishOracle where
  v2Err : Option String := none
  pubsubErr : Option String := none
  v1 : V1Resp := .resp none
deriving DecidableEq, Repr

/-- Source, `updateBuild` (lines 972-978): an `UpdateBuild` failure is
wrapped and returned; on success the pub/sub update error (if any) is
returned. -/
def updateBuildM (o : FinishOracle) : Option String :=
  match o.v2Err with
  | some m => some ("failed to UpdateBuild: " ++ m)
  | none => o.pubsubErr

/-- Source, `cancelBuild` (lines 980-987): a `CancelBuild` failure is
wrapped and returned; on success the pub/sub update error (if any) is
returned. -/
def cancelBuildM (o : FinishOracle) : Option String :=
  match o.v2Err with
  | some m => some ("failed to cancel build: " ++ m)
  | none => o.pubsubErr

/-- Source, `buildSucceededV1` (lines 910-936): a transport error is
returned as-is; a structured response error with reason BUILD_IS_COMPLETED
is only logged (success); any other structured error is returned. -/
def buildSucceededV1M (o : FinishOracle) : Option String :=
  match o.v1 with
  | .transportErr m => some m
  | .resp none => none
  | .resp (some e) =>
      if e.reason = BUILDBUCKET_API_ERROR_REASON_COMPLETED then none else some e.message

/-- Source, `buildFailed` (lines 939-970): same error handling as
`buildSucceededV1` (the BUILD_FAILURE / INFRA_FAILURE reason only changes
the outbound payload, not the control flow). -/
def buildFailedV1M (o : FinishOracle) : Option String :=
  match o.v1 with
  | .transportErr m => some m
  | .resp none => none
  | .resp (some e) =>
      if e.reason = BUILDBUCKET_API_ERROR_REASON_COMPLETED then none else some e.message

/-- Source, `jobFinished` (lines 990-1021): an unfinished job is an error;
an async (V2) CANCELED job is canceled remotely; any other async terminal
job goes through `UpdateBuild`, where an error containing
`buildAlreadyFinishedErr` is absorbed as success; a legacy job goes through
`Succeed` or `Fail` depending on its status. -/
def jobFinishedM (j : Job) (o : FinishOracle) : Option String :=
  if j.done = false then some "JobFinished called for unfinished Job!"
  else if isBBv2 j then
    if j.status = JobStatus.canceled then cancelBuildM o
    else
      match updateBuildM o with
      | some m => if strContainsSub m buildAlreadyFinishedErr then none else some m
      | none => none
  else if j.status = JobStatus.success then buildSucceededV1M o
  else buildFailedV1M o

/-- The mutation `updateJobs` applies to a finished job whose terminal
notification succeeded (source lines 271-272). -/
def clearJob (j : Job) : Job :=
  { j with buildbucketLeaseKey := 0, buildbucketToken := "" }

/-- Source, `updateJobs` lines 267-275: one iteration of the finished-job
loop.  On `jobFinished` success the lease key and token are emptied and the
job is marked for insertion; on failure the error is collected and the job
is left untouched and not inserted. -/
def processFinishedJob (j : Job) (o : FinishOracle) : Job × Bool :=
  match jobFinishedM j o with
  | none => (clearJob j, true)
  | some _ => (j, false)

/-- Source, `updateJobs` lines 263-279: the whole finished-job pass, over
the finished jobs paired with their remote responses.  The second component
of each pair records whether the job was put in the `insert` batch
(persisted via `PutJobsInChunks`, modelled as succeeding). -/
def updateFinishedJobs (l : List (Job × FinishOracle)) : List (Job × Bool) :=
  l.map (fun p => processFinishedJob p.1 p.2)

/-- The jobs `updateJobs` actually persists in the pass. -/
def finishedInsertList (l : List (Job × FinishOracle)) : List Job :=
  (updateFinishedJobs l).filterMap (fun p => if p.2 then some p.1 else none)

/-- Default element used with `List.getD` below. -/
def pairDefault : Job × FinishOracle := ({}, {})

/-- Default element used with `List.getD` below. -/
def outDefault : Job × Bool := ({}, false)

/-- Claim C1: in the finished-job pass of `updateJobs`, a terminal job is
cleared (lease key zeroed, token emptied) and persisted iff `jobFinished`
reported success — which includes the idempotent async response containing
"cannot update an ended build" — and on any other `jobFinished` error the
job is left entirely unchanged and not persisted. -/
theorem updateJobs_clear_lease_iff_notify_ok
    (l : List (Job × FinishOracle)) (i : Nat) (hi : i < l.length)
    (hterm : (l.getD i pairDefault).1.done = true) :
    (((updateFinishedJobs l).getD i outDefault).2 = true ↔
        jobFinishedM (l.getD i pairDefault).1 (l.getD i pairDefault).2 = none) ∧
    (((updateFinishedJobs l).getD i outDefault).2 = true →
        ((updateFinishedJobs l).getD i outDefault).1 = clearJob (l.getD i pairDefault).1) ∧
    (((updateFinishedJobs l).getD i outDefault).2 = false →
        ((updateFinishedJobs l).getD i outDefault).1 = (l.getD i pairDefault).1) := by
  have hlen : i < (updateFinishedJobs l).length := by
    simpa [updateFinishedJobs] using hi
  have hget : (updateFinishedJobs l).getD i outDefault =
      processFinishedJob (l.getD i pairDefault).1 (l.getD i pairDefault).2 := by
    rw [List.getD_eq_getElem _ _ hlen, List.getD_eq_getElem _ _ hi]
    simp [updateFinishedJobs]
  rw [hget]
  generalize l.getD i pairDefault = p at *
  cases hjf : jobFinishedM p.1 p.2 with
  | none => simp [processFinishedJob, hjf]
  | some e => simp [processFinishedJob, hjf]

/-- Concrete input for the claim C1 witness: an async SUCCESS job holding a
token, whose `UpdateBuild` is answered with the idempotent
"cannot update an ended build" error. -/
def c1List : List (Job × FinishOracle) :=
  [({ id := "j1", buildbucketBuildId := 9, buildbucketToken := "tok1",
      buildbucketPubSubTopic := "projects/p/topics/t", status := .success },
    { v2Err := some "rpc error: cannot update an ended build" })]

/-- Witness for claim C1: the already-ended async response counts as
success, so the job is persisted (and, by the theorem, cleared). -/
theorem updateJobs_clear_lease_iff_notify_ok_applied :
    ((updateFinishedJobs c1List).getD 0 outDefault).2 = true :=
  (updateJobs_clear_lease_iff_notify_ok c1List 0 (by decide) (by decide)).1.mpr (by decide)

/-! ### tryLeaseV1Build (source lines 529-543) and sendHeartbeats
(source lines 313-420) -/

/-- Oracle for one `Lease` RPC: either the request fails (transport error)
or a response arrives carrying a lease key (0 when `resp.Build` is nil) and
an optional structured error. -/
inductive LeaseResp where
  | transportErr (msg : String)
  | resp (leaseKey : Int) (e : Option BBError)
deriving DecidableEq, Repr

/-- Source, `tryLeaseV1Build`: returns (leaseKey, bbError, err).  A
transport failure yields (0, nil, err); otherwise the lease key from the
response (0 if no build) and the structured response error, with nil err. -/
def tryLeaseV1Build : LeaseResp → Int × Option BBError × Option String
  | .transportErr m => (0, none, some ("failed request to lease buildbucket build: " ++ m))
  | .resp k e => (k, e, none)

/-- Source, lines 373-379: the guard of the cancel branch after a re-lease
attempt, literally `err != nil && bbError != nil`, and the error message
selection inside it (`err` first, else `bbError.Message`). -/
def releaseFailGuard (r : Int × Option BBError × Option String) : Bool :=
  r.2.2.isSome && r.2.1.isSome

/-- Source, lines 374-379: `errMsg` as computed inside the cancel branch. -/
def releaseFailMsg (r : Int × Option BBError × Option String) : String :=
  match r.2.2 with
  | some m => m
  | none =>
    match r.2.1 with
    | some e => e.message
    | none => ""

/-- Oracle for one heartbeat batch: the batch RPC either fails in transport
or returns an ordered list of per-job results (`result.Error`, nil on
success), together with the responses the service would give to any
follow-up `Lease` RPC, keyed by build id. -/
inductive HBOracle where
  | transportErr (msg : String)
  | results (rs : List (Option BBError)) (lease : Int → LeaseResp)

/-- Source, lines 352-403: the fate of the job at one batch position, given
its heartbeat result.  No error: untouched.  BUILD_IS_COMPLETED: untouched
(the branch at lines 355-358 performs no action).  LEASE_EXPIRED: one
re-lease attempt; the cancel branch is guarded by `releaseFailGuard`, and
otherwise the lease key from the attempt (0 on failure) is stored.  Any
other reason: the job is canceled locally. -/
def hbJobUpdate (tnow : Int) (lease : Int → LeaseResp) (j : Job) (r : Option BBError) : Job :=
  match r with
  | none => j
  | some e =>
    if e.reason = BUILDBUCKET_API_ERROR_REASON_COMPLETED then j
    else if e.reason = BUILDBUCKET_API_ERROR_REASON_LEASE_EXPIRED then
      let lr := tryLeaseV1Build (lease j.buildbucketBuildId)
      if releaseFailGuard lr then
        cancelJob j ("Buildbucket rejected heartbeat and failed to re-lease with: "
          ++ releaseFailMsg lr) tnow
      else { j with buildbucketLeaseKey := lr.1 }
    else cancelJob j ("Buildbucket rejected heartbeat with: " ++ e.reason) tnow

/-- Source, lines 359-360: the positions for which a re-lease is attempted
(the `retryLeaseJobs` list), as build ids. -/
def hbLeaseAttempts (z : List (Job × Option BBError)) : List Int :=
  z.filterMap (fun p =>
    match p.2 with
    | some e =>
      if e.reason = BUILDBUCKET_API_ERROR_REASON_LEASE_EXPIRED then
        some p.1.buildbucketBuildId
      else none
    | none => none)

/-- Source, lines 361-365: jobs canceled directly from their heartbeat
result (reasons other than BUILD_IS_COMPLETED and LEASE_EXPIRED), with the
cancellation reasons. -/
def hbCancelFromResult (z : List (Job × Option BBError)) : List (Job × String) :=
  z.filterMap (fun p =>
    match p.2 with
    | some e =>
      if e.reason = BUILDBUCKET_API_ERROR_REASON_COMPLETED then none
      else if e.reason = BUILDBUCKET_API_ERROR_REASON_LEASE_EXPIRED then none
      else some (p.1, "Buildbucket rejected heartbeat with: " ++ e.reason)
    | none => none)

/-- Source, lines 371-388: jobs canceled out of the re-lease loop — those
whose re-lease attempt satisfies `releaseFailGuard`. -/
def hbCancelFromRelease (lease : Int → LeaseResp) (z : List (Job × Option BBError)) :
    List (Job × String) :=
  z.filterMap (fun p =>
    match p.2 with
    | some e =>
      if e.reason = BUILDBUCKET_API_ERROR_REASON_LEASE_EXPIRED then
        let lr := tryLeaseV1Build (lease p.1.buildbucketBuildId)
        if releaseFailGuard lr then
          some (p.1, "Buildbucket rejected heartbeat and failed to re-lease with: "
            ++ releaseFailMsg lr)
        else none
      else none
    | none => none)

/-- Source, lines 383 and 396-403: build ids canceled remotely (only ever
appended in the re-lease cancel branch). -/
def hbRemoteCancels (lease : Int → LeaseResp) (z : List (Job × Option BBError)) : List Int :=
  z.filterMap (fun p =>
    match p.2 with
    | some e =>
      if e.reason = BUILDBUCKET_API_ERROR_REASON_LEASE_EXPIRED then
        if releaseFailGuard (tryLeaseV1Build (lease p.1.buildbucketBuildId)) then
          some p.1.buildbucketBuildId
        else none
      else none
    | none => none)

/-- What one heartbeat batch did: the batch jobs after mutation (same order
as sent), the locally canceled jobs with reasons, the remotely canceled
build ids, the build ids for which a fresh lease was attempted, and the
errors collected for the batch. -/
structure BatchOutcome where
  jobsOut : List Job
  canceledLocal : List (Job × String)
  canceledRemote : List Int
  leaseAttempts : List Int
  errs : List String
deriving Repr

/-- Source, lines 327-404: the `send` closure for one batch.  A transport
failure records one error and does nothing else; a result list of the wrong
length records one error and processes none of the per-job results;
otherwise the per-job results are processed as in `hbJobUpdate` and the
cancel lists are built (local cancels and remote build cancels are modelled
as succeeding). -/
def sendOneBatch (tnow : Int) (jobs : List Job) (o : HBOracle) : BatchOutcome :=
  match o with
  | .transportErr m =>
    ⟨jobs, [], [], [], ["failed to send heartbeat request: " ++ m]⟩
  | .results rs lease =>
    if rs.length ≠ jobs.length then
      ⟨jobs, [], [], [],
        ["Heartbeat result has incorrect number of jobs (" ++ toString rs.length
          ++ " vs " ++ toString jobs.length ++ ")"]⟩
    else
      let z := jobs.zip rs
      ⟨z.map (fun p => hbJobUpdate tnow lease p.1 p.2),
        hbCancelFromResult z ++ hbCancelFromRelease lease z,
        hbRemoteCancels lease z,
        hbLeaseAttempts z,
        []⟩

/-- Source, lines 300-302 and 319: jobs are sorted by Buildbucket build id
before batching (insertion sort; Go uses `sort.Sort`, whose exact
permutation on ties is irrelevant here). -/
def insertByBuildId (j : Job) : List Job → List Job
  | [] => [j]
  | x :: xs =>
    if j.buildbucketBuildId ≤ x.buildbucketBuildId then j :: x :: xs
    else x :: insertByBuildId j xs

def sortByBuildId (l : List Job) : List Job :=
  l.foldr insertByBuildId []

/-- Source, lines 407-414: the batching loop `jobs[:j] / jobs[j:]` with
batch size `LEASE_BATCH_SIZE`.  Written with fuel (each step consumes at
least one job, so `l.length` steps always suffice) so that the function
reduces by evaluation. -/
def chunkListFuel : Nat → List Job → List (List Job)
  | 0, _ => []
  | _, [] => []
  | Nat.succ f, l => l.take LEASE_BATCH_SIZE :: chunkListFuel f (l.drop LEASE_BATCH_SIZE)

def chunkList (l : List Job) : List (List Job) :=
  chunkListFuel l.length l

/-- Source, `sendHeartbeats`: sort, then send one batch per chunk, each
batch getting its own RPC (oracle indexed by batch number). -/
def sendHeartbeats (jobs : List Job) (oracle : Nat → HBOracle) (tnow : Int) :
    List BatchOutcome :=
  (List.range (chunkList (sortByBuildId jobs)).length).map
    (fun c => sendOneBatch tnow ((chunkList (sortByBuildId jobs)).getD c []) (oracle c))

/-- Default element used with `List.getD` on batch outcomes. -/
def outcomeDefault : BatchOutcome := ⟨[], [], [], [], []⟩

/-- Positional access to `sendHeartbeats` results: batch `c` is exactly
`sendOneBatch` of chunk `c` with oracle `c`. -/
theorem sendHeartbeats_getD (jobs : List Job) (oracle : Nat → HBOracle) (tnow : Int)
    (c : Nat) (hc : c < (chunkList (sortByBuildId jobs)).length) :
    (sendHeartbeats jobs oracle tnow).getD c outcomeDefault =
      sendOneBatch tnow ((chunkList (sortByBuildId jobs)).getD c []) (oracle c) := by
  have hlen : c < (sendHeartbeats jobs oracle tnow).length := by
    simpa [sendHeartbeats] using hc
  rw [List.getD_eq_getElem _ _ hlen]
  simp [sendHeartbeats]

/-- Claim C7: a heartbeat batch whose result list has the wrong length
contributes exactly one aggregate error, mutates none of its jobs, cancels
nothing, attempts no re-lease — and every batch, this one included, is
processed independently of the others (the loop continues). -/
theorem heartbeat_batch_length_mismatch_isolated
    (jobs : List Job) (oracle : Nat → HBOracle) (tnow : Int) (c : Nat)
    (rs : List (Option BBError)) (lf : Int → LeaseResp)
    (hc : c < (chunkList (sortByBuildId jobs)).length)
    (ho : oracle c = HBOracle.results rs lf)
    (hlen : rs.length ≠ ((chunkList (sortByBuildId jobs)).getD c []).length) :
    (sendHeartbeats jobs oracle tnow).getD c outcomeDefault =
      ⟨(chunkList (sortByBuildId jobs)).getD c [], [], [], [],
        ["Heartbeat result has incorrect number of jobs (" ++ toString rs.length
          ++ " vs " ++ toString ((chunkList (sortByBuildId jobs)).getD c []).length ++ ")"]⟩ ∧
    (∀ c2, c2 < (chunkList (sortByBuildId jobs)).length →
      (sendHeartbeats jobs oracle tnow).getD c2 outcomeDefault =
        sendOneBatch tnow ((chunkList (sortByBuildId jobs)).getD c2 []) (oracle c2)) := by
  refine ⟨?_, fun c2 hc2 => sendHeartbeats_getD jobs oracle tnow c2 hc2⟩
  rw [sendHeartbeats_getD jobs oracle tnow c hc, ho]
  generalize (chunkList (sortByBuildId jobs)).getD c [] = batch at hlen ⊢
  simp [sendOneBatch, hlen]

/-- Concrete jobs for the claim C7 witness. -/
def c7JobA : Job := { id := "a7", buildbucketBuildId := 1, buildbucketLeaseKey := 11 }

def c7JobB : Job := { id := "b7", buildbucketBuildId := 2, buildbucketLeaseKey := 22 }

/-- Witness for claim C7: two jobs in one batch, a result list of length
one; the batch reports the mismatch error and leaves both jobs untouched. -/
theorem heartbeat_batch_length_mismatch_isolated_applied :
    (sendHeartbeats [c7JobA, c7JobB]
        (fun _ => HBOracle.results [none] (fun _ => LeaseResp.resp 1 none)) 0).getD 0
        outcomeDefault =
      ⟨[c7JobA, c7JobB], [], [], [],
        ["Heartbeat result has incorrect number of jobs (1 vs 2)"]⟩ :=
  (heartbeat_batch_length_mismatch_isolated [c7JobA, c7JobB]
    (fun _ => HBOracle.results [none] (fun _ => LeaseResp.resp 1 none)) 0 0
    [none] (fun _ => LeaseResp.resp 1 none) (by decide) rfl (by decide)).1

/-! ### Claim C2: re-lease failure during heartbeats -/

/-- Concrete jobs for the claim C2 input. -/
def c2JobA : Job :=
  { id := "a2", buildbucketBuildId := 1, buildbucketLeaseKey := 11, status := .inProgress }

def c2JobB : Job :=
  { id := "b2", buildbucketBuildId := 2, buildbucketLeaseKey := 22, status := .inProgress }

/-- The heartbeat batch result for claim C2: build 1 fine, build 2 rejected
with LEASE_EXPIRED; every follow-up `Lease` RPC fails in transport. -/
def c2Oracle : HBOracle :=
  HBOracle.results [none, some { reason := "LEASE_EXPIRED" }]
    (fun _ => LeaseResp.transportErr "connection refused")

/-- Claim C2, evaluated at its failing input.  A fresh lease is attempted
for build 2 only (first conjunct) — that half of the claim holds.  But when
the fresh lease attempt fails, the code does NOT cancel: the guard of its
cancel branch is `err != nil && bbError != nil`, which `tryLeaseV1Build`
can never satisfy (last conjunct: one return value is always nil), so job 2
merely has its lease key overwritten with the zero key of the failed
attempt, and nothing is canceled locally or remotely. -/
theorem heartbeat_retry_lease_failure_eval :
    (sendOneBatch 100 [c2JobA, c2JobB] c2Oracle).leaseAttempts = [2] ∧
    (sendOneBatch 100 [c2JobA, c2JobB] c2Oracle).canceledLocal = [] ∧
    (sendOneBatch 100 [c2JobA, c2JobB] c2Oracle).canceledRemote = [] ∧
    (sendOneBatch 100 [c2JobA, c2JobB] c2Oracle).jobsOut =
      [c2JobA, { c2JobB with buildbucketLeaseKey := 0 }] ∧
    (∀ lr : LeaseResp, releaseFailGuard (tryLeaseV1Build lr) = false) := by
  refine ⟨by decide, by decide, by decide, by decide, ?_⟩
  intro lr
  cases lr <;> simp [tryLeaseV1Build, releaseFailGuard]

/-! ### startJob (source lines 669-838) -/

/-- Source, `isBuildAlreadyStartedError`: the error is non-nil and its
message contains `buildAlreadyStartedErr`. -/
def isBuildAlreadyStartedError : Option String → Bool
  | none => false
  | some m => strContainsSub m buildAlreadyStartedErr

/-- Source, `isBuildAlreadyFinishedError`: the error is non-nil and its
message contains `buildAlreadyFinishedErr`. -/
def isBuildAlreadyFinishedError : Option String → Bool
  | none => false
  | some m => strContainsSub m buildAlreadyFinishedErr

/-- Modelled from the spec: `types.RepoState.Valid` is not under `src/`.
Spec section 3: a repo-state carries a repository URL, a revision, and an
optional patch descriptor; valid means repo and revision are set and the
patch descriptor is either fully empty or fully populated. -/
def RepoState.valid (rs : RepoState) : Bool :=
  rs.repo != "" && rs.revision != "" &&
    ((rs.patch.server = "" && rs.patch.issue = "" && rs.patch.patchset = "")
      || (rs.patch.server != "" && rs.patch.issue != "" && rs.patch.patchset != ""))

/-- Modelled from the spec: `types.RepoState.IsTryJob` is not under `src/`.
Spec section 3: a job with a non-empty patch descriptor is a try-job. -/
def RepoState.isTryJob (rs : RepoState) : Bool :=
  rs.patch.server != "" && rs.patch.issue != "" && rs.patch.patchset != ""

/-- Source, `skipRepoState` (lines 1080-1086): the fixed denylist — issue
527502 patchset 1. -/
def skipRepoState (rs : RepoState) : Bool :=
  rs.patch.issue = "527502" && rs.patch.patchset = "1"

/-- Source, line 758: `startJobHelper` rejects the job unless its repo-state
is valid, is a try-job, and is not denylisted. -/
def repoStateStartOk (rs : RepoState) : Bool :=
  rs.valid && rs.isTryJob && !skipRepoState rs

/-- Modelled from the spec: bounded-length truncation of error messages
(`util.Truncate` is not under `src/`). -/
def truncateStr (n : Nat) (s : String) : String :=
  if s.length ≤ n then s else ⟨s.data.take n⟩

/-- Oracle for the external collaborators consulted by `startJobHelper`:
whether the repo URL is known, the revision resolution results (from the
Gerrit branch when the revision is empty, from the repo graph otherwise),
and the task-configuration pipeline outcomes. -/
structure HelperOracle where
  repoKnown : Bool := true
  revFromIssue : Option String := some "abc123"
  revResolve : Option String := some "abc123"
  cacheRepoStateErr : Option String := none
  taskCfgErr : Option String := none
  taskCfgCachedErr : Option String := none
  hasJobSpec : Bool := true
  dagErr : Option String := none
  dagDeps : List (String × List String) := []
  prevJobsNonempty : Bool := false

/-- Source, lines 737-795: the `startJobHelper` closure.  Resolves the
revision, validates the repo-state (including the denylist), loads the task
configuration and job spec, computes the dependency graph and the is-force
flag.  Returns the mutated job or the error that makes `startJob` mark the
job MISHAP. -/
def startJobHelper (job : Job) (ho : HelperOracle) : Except String Job :=
  if ho.repoKnown = false then
    .error ("unable to find repo " ++ job.repoState.repo)
  else
    let rev? : Except String String :=
      if job.repoState.revision = "" then
        match ho.revFromIssue with
        | some r => .ok r
        | none => .error ("failed to find base revision for issue " ++ job.repoState.patch.issue)
      else
        match ho.revResolve with
        | some h => .ok h
        | none => .error ("Unknown revision " ++ job.repoState.revision)
    match rev? with
    | .error e => .error e
    | .ok rev =>
      let job := { job with repoState := { job.repoState with revision := rev } }
      if repoStateStartOk job.repoState = false then
        .error ("invalid RepoState: " ++ job.repoState.repo)
      else match ho.cacheRepoStateErr with
        | some e => .error ("failed to obtain JobSpec: " ++ e)
        | none =>
          match ho.taskCfgErr with
          | some e => .error e
          | none =>
            match ho.taskCfgCachedErr with
            | some e => .error e
            | none =>
              if ho.hasJobSpec = false then .error ("no such job: " ++ job.name)
              else match ho.dagErr with
                | some e => .error e
                | none =>
                  let job := { job with dependencies := ho.dagDeps }
                  let job := if ho.prevJobsNonempty then { job with isForce := true } else job
                  .ok job

/-- Oracle for the `jobStarted` notification: the Buildbucket V2
`StartBuild` outcome (token and error) and the legacy `Start` outcome. -/
structure StartOracle where
  v2Token : String := ""
  v2Err : Option String := none
  v1 : V1Resp := .resp none
deriving DecidableEq, Repr

/-- Source, `jobStarted` (lines 891-907): returns (token, bbError, err).
The V2 path returns the update token and only a transport-style error (its
structured error is always nil); the legacy path returns no token, and a
transport failure leaves the structured error nil. -/
def jobStartedM (j : Job) (so : StartOracle) : String × Option BBError × Option String :=
  if isBBv2 j then (so.v2Token, none, so.v2Err)
  else
    match so.v1 with
    | .transportErr m => ("", none, some m)
    | .resp e => ("", e, none)

/-- Everything `startJob` did: how many times the remote start notification
was sent, how many database writes happened (the direct `PutJob` and the
write inside `localCancelJobs`), the record that was persisted (if any),
whether the Go code dereferences a nil `bbError` (a runtime panic), and the
returned error. -/
structure StartTrace where
  startRpcCalls : Nat
  dbWrites : Nat
  persisted : Option Job
  panicked : Bool
  err : Option String
deriving DecidableEq, Repr

/-- Source, line 809: the cancel reason used when Buildbucket reports the
build as already started. -/
def alreadyStartedCancelReason : String :=
  "StartBuild has already been called for this Job, but the Job was not correctly updated and cannot continue."

/-- Source, `startJob` (lines 721-838).  Re-reads the job from the database
(`dbResult`); no-ops unless the fresh copy is still REQUESTED; on helper
failure marks the job MISHAP and persists it; otherwise marks it
IN_PROGRESS and notifies Buildbucket.  An already-started error or a
structured rejection cancels the job locally; both return statements of
that branch then evaluate `bbError.Message`, which is a nil-pointer
dereference (modelled as `panicked := true`) whenever the branch was
entered because of the already-started substring, since `bbError` is nil on
that path.  Any other transport error is returned without persisting; on
success the returned token (if any) is stored and the job persisted. -/
def startJobM (job : Job) (dbResult : Except String Job) (ho : HelperOracle)
    (so : StartOracle) (tnow : Int) : StartTrace :=
  match dbResult with
  | .error e => ⟨0, 0, none, false, some ("failed loading job from DB: " ++ e)⟩
  | .ok updatedJob =>
    if updatedJob.status != JobStatus.requested then ⟨0, 0, none, false, none⟩
    else
      match startJobHelper job ho with
      | .error e =>
        let j := { job with
          status := JobStatus.mishap
          statusDetails := truncateStr 1024 ("Failed to start Job: " ++ e) }
        ⟨0, 1, some j, false, none⟩
      | .ok j1 =>
        let j2 := { j1 with status := JobStatus.inProgress }
        let r := jobStartedM j2 so
        if isBuildAlreadyStartedError r.2.2 || r.2.1.isSome then
          let cancelReason :=
            if isBuildAlreadyStartedError r.2.2 then alreadyStartedCancelReason
            else
              "Buildbucket rejected Start with: " ++
                (match r.2.1 with | some e => e.reason | none => "")
          let jc := cancelJob j2 cancelReason tnow
          match r.2.1 with
          | some e => ⟨1, 1, some jc, false, some ("failed to start job with " ++ e.message)⟩
          | none => ⟨1, 1, some jc, true, none⟩
        else
          match r.2.2 with
          | some m => ⟨1, 0, none, false, some ("failed to send job-started notification: " ++ m)⟩
          | none =>
            let j3 := if r.1 != "" then { j2 with buildbucketToken := r.1 } else j2
            ⟨1, 1, some j3, false, none⟩

/-- Claim C6: whenever the re-read of the job from the database comes back
with a status other than REQUESTED, `startJob` returns success immediately:
no remote start notification, no database write, no error. -/
theorem startJob_noop_when_not_requested (job updatedJob : Job) (ho : HelperOracle)
    (so : StartOracle) (tnow : Int) (h : updatedJob.status ≠ JobStatus.requested) :
    startJobM job (.ok updatedJob) ho so tnow = ⟨0, 0, none, false, none⟩ := by
  have hb : (updatedJob.status != JobStatus.requested) = true := by
    simpa [bne_iff_ne] using h
  simp [startJobM, hb]

/-- Witness for claim C6: a job already advanced to IN_PROGRESS by the
other trigger is left alone. -/
theorem startJob_noop_when_not_requested_applied :
    startJobM { id := "w6" } (.ok { id := "w6", status := .inProgress }) {} {} 0 =
      ⟨0, 0, none, false, none⟩ :=
  startJob_noop_when_not_requested { id := "w6" } { id := "w6", status := .inProgress }
    {} {} 0 (by decide)

/-! ### Claim C3: second StartBuild of an already-started build -/

/-- Concrete async-protocol job for claim C3: a valid, non-denylisted
try-job repo-state and a pub/sub topic (Buildbucket V2). -/
def c3Job : Job :=
  { id := "j3", buildbucketBuildId := 99,
    buildbucketPubSubTopic := "projects/p/topics/t",
    name := "Try-Builder",
    repoState :=
      { patch := { server := "https://review.example.com", issue := "12345",
                   patchRepo := "https://repo.example.com/skia", patchset := "2" },
        repo := "https://repo.example.com/skia", revision := "main" },
    status := .requested }

/-- The V2 `StartBuild` response for claim C3: a transport error carrying
the already-started substring, and (as always on the V2 path) no structured
error object. -/
def c3Oracle : StartOracle :=
  { v2Err := some ("rpc error: build 99 has recorded another StartBuild with request id j3") }

/-- Claim C3, evaluated at its failing input.  The second `StartBuild` of an
already-started V2 build does reach the cancel branch and the job is
canceled locally with the descriptive reason — but both return statements
of that branch evaluate `bbError.Message` while `bbError` is nil on the V2
path, a nil-pointer dereference: the process panics instead of returning an
ordinary error. -/
theorem startJob_already_started_nil_deref_eval :
    (startJobM c3Job (.ok c3Job) {} c3Oracle 50).panicked = true ∧
    (startJobM c3Job (.ok c3Job) {} c3Oracle 50).persisted =
      some (cancelJob
        { c3Job with
            repoState := { c3Job.repoState with revision := "abc123" }
            status := JobStatus.inProgress }
        alreadyStartedCancelReason 50) ∧
    (startJobM c3Job (.ok c3Job) {} c3Oracle 50).err = none := by
  refine ⟨by decide, by decide, by decide⟩

/-! ### insertNewJobV1 (source lines 564-667) -/

/-- A Gerrit change reference attached to a Buildbucket build. -/
structure GerritChange where
  host : String := ""
  project : String := ""
  change : Int := 0
  patchset : Int := 0
deriving DecidableEq, Repr

/-- The Buildbucket build status values distinguished by the source. -/
inductive BBStatus where
  | scheduled
  | started
  | other
deriving DecidableEq, Repr

/-- The fields of a Buildbucket V2 build read by `insertNewJobV1`. -/
structure BBBuild where
  id : Int := 0
  status : BBStatus := .scheduled
  gerritChanges : List GerritChange := []
  createTime : Int := 0
  builderName : String := ""
deriving DecidableEq, Repr

/-- Oracle for one `insertNewJobV1` run: the job search result, the
`GetBuild` response, the `Lease` responses for the unexpected-status probe
and for the main lease attempt, the result of any remote cancel, and the
current time. -/
structure IntakeOracle where
  existing : Option Job := none
  getBuild : Except String BBBuild := .ok {}
  lease1 : LeaseResp := .resp 0 none
  lease2 : LeaseResp := .resp 1 none
  cancelErr : Option String := none
  tnow : Int := 0

/-- What `insertNewJobV1` did: how many `Lease` RPCs it sent, which remote
cancel messages it issued, the job it persisted (if any), and its returned
error. -/
structure IntakeTrace where
  leaseAttempts : Nat
  remoteCancelMsgs : List String
  inserted : Option Job
  err : Option String
deriving DecidableEq, Repr

/-- Source, line 602: `projectRepoMapping` lookup. -/
def lookupRepo (mapping : List (String × String)) (project : String) : Option String :=
  (mapping.find? (fun p => p.1 == project)).map (fun p => p.2)

/-- Source, lines 606-609: prepend https when the Gerrit host has no
scheme. -/
def normalizeServer (host : String) : String :=
  if strContainsSub host "://" then host else "https://" ++ host

/-- Source, lines 610-621: the repo-state built for the build — patch from
the single Gerrit change (issue and patchset rendered in decimal), repo
from the project mapping, revision deliberately left empty. -/
def mkRepoState (gc : GerritChange) (repoUrl : String) : RepoState :=
  { patch :=
      { server := normalizeServer gc.host
        issue := toString gc.change
        patchRepo := repoUrl
        patchset := toString gc.patchset }
    repo := repoUrl
    revision := "" }

/-- Modelled from the spec: `firestore.TS_RESOLUTION` (one
timestamp-resolution unit) is not under `src/`; any positive constant on
the integer time model. -/
def TS_RESOLUTION : Int := 1

/-- Modelled from the spec: `firestore.FixTimestamp` is not under `src/`
and the spec does not describe it; the identity on the integer time model
(the theorems below quantify over the resulting timestamps, so any
rounding is covered). -/
def fixTimestamp (t : Int) : Int := t

/-- Source, lines 626-637: the candidate job — status REQUESTED, requested
and created timestamps fixed, and, when the build creation time is not
strictly before the local creation time, requested forced back to created
minus one resolution unit.  This runs before the lease attempt and before
the database write. -/
def mkIntakeJob (buildId : Int) (builderName : String) (rs : RepoState)
    (createTime tnow : Int) : Job :=
  if fixTimestamp createTime < fixTimestamp tnow then
    { name := builderName
      buildbucketBuildId := buildId
      requested := fixTimestamp createTime
      created := fixTimestamp tnow
      repoState := rs
      status := JobStatus.requested }
  else
    { name := builderName
      buildbucketBuildId := buildId
      requested := fixTimestamp tnow - TS_RESOLUTION
      created := fixTimestamp tnow
      repoState := rs
      status := JobStatus.requested }

/-- Source, lines 583-595: the handling of a build found in a status other
than SCHEDULED: probe-lease it; if the probe fails (as expected) give up on
the build; if it unexpectedly succeeds, cancel the build remotely, giving
up if the cancel fails and otherwise falling through to normal intake. -/
inductive StatusStage where
  | abort (t : IntakeTrace)
  | continueWith (leases : Nat) (cancels : List String)

def intakeStatusStage (status : BBStatus) (lease1 : LeaseResp) (cancelErr : Option String) :
    StatusStage :=
  if status = BBStatus.scheduled then .continueWith 0 []
  else if (tryLeaseV1Build lease1).2.2.isSome || (tryLeaseV1Build lease1).2.1.isSome then
    .abort ⟨1, [], none, none⟩
  else
    match cancelErr with
    | some _ => .abort ⟨1, ["Unexpected status"], none, none⟩
    | none => .continueWith 1 ["Unexpected status"]

/-- Source, `insertNewJobV1`.  The denylist (`skipRepoState`) is nowhere
consulted on this path.  Remote cancels and the final `PutJob` are modelled
as performing their action and returning `cancelErr` respectively
succeeding; the conversion of the build creation timestamp is modelled as
always succeeding. -/
def insertNewJobV1M (mapping : List (String × String)) (buildId : Int)
    (o : IntakeOracle) : IntakeTrace :=
  match o.existing with
  | some _ => ⟨0, [], none, none⟩
  | none =>
    match o.getBuild with
    | .error m => ⟨0, [], none, some ("failed to retrieve build: " ++ m)⟩
    | .ok build =>
      match intakeStatusStage build.status o.lease1 o.cancelErr with
      | .abort t => t
      | .continueWith lc cns =>
        match build.gerritChanges with
        | [gc] =>
          match lookupRepo mapping gc.project with
          | none =>
            ⟨lc, cns ++ ["Unknown patch project " ++ gc.project], none, o.cancelErr⟩
          | some repoUrl =>
            match (tryLeaseV1Build o.lease2).2.2 with
            | some m => ⟨lc + 1, cns, none, some ("failed to lease build: " ++ m)⟩
            | none =>
              match (tryLeaseV1Build o.lease2).2.1 with
              | some e =>
                if e.reason = BUILDBUCKET_API_ERROR_REASON_INVALID_INPUT then
                  ⟨lc + 1, cns, none, none⟩
                else
                  ⟨lc + 1,
                    cns ++ ["Buildbucket refused lease with " ++ e.message
                      ++ " (" ++ e.reason ++ ")"],
                    none, o.cancelErr⟩
              | none =>
                if (tryLeaseV1Build o.lease2).1 = 0 then
                  ⟨lc + 1, cns ++ ["Buildbucket returned zero lease key"], none, o.cancelErr⟩
                else
                  ⟨lc + 1, cns,
                    some { mkIntakeJob buildId build.builderName (mkRepoState gc repoUrl)
                        build.createTime o.tnow
                      with buildbucketLeaseKey := (tryLeaseV1Build o.lease2).1 },
                    none⟩
        | _ =>
          ⟨lc, cns ++ ["input should have exactly one GerritChanges"], none, o.cancelErr⟩

/-! ### Claim C4: the denylist at intake -/

/-- The denylisted Gerrit change (issue 527502, patchset 1). -/
def c4Change : GerritChange :=
  { host := "review.example.com", project := "skia", change := 527502, patchset := 1 }

/-- A pending (SCHEDULED) Buildbucket build carrying the denylisted
change. -/
def c4Build : BBBuild :=
  { id := 42, status := .scheduled, gerritChanges := [c4Change],
    createTime := 100, builderName := "Try-Builder" }

def c4Mapping : List (String × String) :=
  [("skia", "https://skia.googlesource.com/skia")]

def c4Oracle : IntakeOracle :=
  { existing := none, getBuild := .ok c4Build, lease2 := .resp 7 none, tnow := 200 }

/-- Claim C4, counterexample: the repo-state of this pending build is on
the denylist, yet `insertNewJobV1` attempts the lease RPC and creates a
local job for it — the claimed immediate skip does not happen. -/
theorem intake_denylist_not_checked_cex :
    skipRepoState (mkRepoState c4Change "https://skia.googlesource.com/skia") = true ∧
    (insertNewJobV1M c4Mapping 42 c4Oracle).leaseAttempts = 1 ∧
    (insertNewJobV1M c4Mapping 42 c4Oracle).inserted.isSome = true := by
  refine ⟨by decide, by decide, by decide⟩

/-- Claim C4 as amended: intake does not consult the denylist — a pending
SCHEDULED build with a single mapped Gerrit change is leased and, on lease
success, a local REQUESTED job is created for it even when its repo-state
is denylisted; the denylist is instead enforced by `startJob`, whose
repo-state check (line 758) fails every denylisted repo-state. -/
theorem intake_denylist_deferred_to_start (mapping : List (String × String))
    (buildId : Int) (o : IntakeOracle) (b : BBBuild) (gc : GerritChange)
    (repoUrl : String) (k : Int)
    (h1 : o.existing = none) (h2 : o.getBuild = .ok b) (h3 : b.status = .scheduled)
    (h4 : b.gerritChanges = [gc]) (h5 : lookupRepo mapping gc.project = some repoUrl)
    (h6 : o.lease2 = .resp k none) (h7 : k ≠ 0) :
    (insertNewJobV1M mapping buildId o).leaseAttempts = 1 ∧
    (insertNewJobV1M mapping buildId o).inserted =
      some { mkIntakeJob buildId b.builderName (mkRepoState gc repoUrl) b.createTime o.tnow
        with buildbucketLeaseKey := k } ∧
    (∀ rev : String, skipRepoState (mkRepoState gc repoUrl) = true →
      repoStateStartOk { mkRepoState gc repoUrl with revision := rev } = false) := by
  refine ⟨?_, ?_, ?_⟩
  · simp [insertNewJobV1M, h1, h2, h3, h4, h5, h6, intakeStatusStage, tryLeaseV1Build, h7]
  · simp [insertNewJobV1M, h1, h2, h3, h4, h5, h6, intakeStatusStage, tryLeaseV1Build, h7]
  · intro rev hskip
    simp only [repoStateStartOk, mkRepoState] at *
    simp [skipRepoState] at hskip ⊢
    simp [hskip]

/-- Witness for the amended claim C4: the denylisted build of the
counterexample is leased, inserted, and would be rejected by the
`startJob` repo-state check. -/
theorem intake_denylist_deferred_to_start_applied :
    (insertNewJobV1M c4Mapping 42 c4Oracle).leaseAttempts = 1 ∧
    (insertNewJobV1M c4Mapping 42 c4Oracle).inserted =
      some { mkIntakeJob 42 c4Build.builderName
        (mkRepoState c4Change "https://skia.googlesource.com/skia") c4Build.createTime 200
        with buildbucketLeaseKey := 7 } ∧
    repoStateStartOk
      { mkRepoState c4Change "https://skia.googlesource.com/skia" with revision := "abc123" } =
      false := by
  have h := intake_denylist_deferred_to_start c4Mapping 42 c4Oracle c4Build c4Change
    "https://skia.googlesource.com/skia" 7 rfl rfl rfl rfl (by decide) rfl (by decide)
  exact ⟨h.1, h.2.1, h.2.2 "abc123" (by decide)⟩

/-! ### Claim C9: requested strictly before created -/

/-- Helper: the abort traces of the unexpected-status stage never carry an
inserted job. -/
theorem intakeStatusStage_abort_none (s : BBStatus) (l : LeaseResp) (c : Option String)
    (t : IntakeTrace) (h : intakeStatusStage s l c = .abort t) : t.inserted = none := by
  unfold intakeStatusStage at h
  repeat' split at h
  all_goals
    first
      | (simp at h
         done)
      | (simp only [StatusStage.abort.injEq] at h
         subst h
         rfl)

/-- Claim C9: every job `insertNewJobV1` persists has its requested
timestamp strictly before its created timestamp, and whenever the (fixed)
build creation time is not before the (fixed) local creation time the
candidate job — built before any lease attempt or database write — has its
requested time forced to created minus one resolution unit. -/
theorem intake_requested_before_created (mapping : List (String × String))
    (buildId : Int) (o : IntakeOracle) (j : Job)
    (h : (insertNewJobV1M mapping buildId o).inserted = some j) :
    j.requested < j.created ∧
    (∀ (bid2 : Int) (bn : String) (rs : RepoState) (ct tn : Int),
      fixTimestamp tn ≤ fixTimestamp ct →
        (mkIntakeJob bid2 bn rs ct tn).requested = fixTimestamp tn - TS_RESOLUTION ∧
        (mkIntakeJob bid2 bn rs ct tn).created = fixTimestamp tn) := by
  have hmk : ∀ (bid2 : Int) (bn : String) (rs : RepoState) (ct tn : Int),
      (mkIntakeJob bid2 bn rs ct tn).requested < (mkIntakeJob bid2 bn rs ct tn).created := by
    intro bid2 bn rs ct tn
    by_cases hlt : fixTimestamp ct < fixTimestamp tn <;>
      simp [mkIntakeJob, hlt, TS_RESOLUTION]
  refine ⟨?_, ?_⟩
  · -- Trace through every branch of the intake: a job is only ever
    -- inserted as the lease-key update of `mkIntakeJob`.
    unfold insertNewJobV1M at h
    split at h
    · simp at h
    · split at h
      · simp at h
      · split at h
        · rename_i t heq
          rw [intakeStatusStage_abort_none _ _ _ _ heq] at h
          simp at h
        · split at h
          · split at h
            · simp at h
            · split at h
              · simp at h
              · split at h
                · split at h
                  · simp at h
                  · simp at h
                · split at h
                  · simp at h
                  · simp only [Option.some.injEq] at h
                    subst h
                    simpa using hmk _ _ _ _ _
          · simp at h
  · intro bid2 bn rs ct tn hle
    have hnot : ¬ (fixTimestamp ct < fixTimestamp tn) := not_lt.mpr hle
    refine ⟨?_, ?_⟩ <;> simp [mkIntakeJob, hnot]

/-- Concrete intake run for the claim C9 witness: the build creation time
(300) is after the local clock (200), so the requested timestamp must be
forced back. -/
def c9Change : GerritChange :=
  { host := "r.example.com", project := "skia", change := 111, patchset := 3 }

def c9Mapping : List (String × String) :=
  [("skia", "https://skia.googlesource.com/skia")]

def c9Build : BBBuild :=
  { id := 5, status := .scheduled, gerritChanges := [c9Change],
    createTime := 300, builderName := "B9" }

def c9Oracle : IntakeOracle :=
  { existing := none, getBuild := .ok c9Build, lease2 := .resp 9 none, tnow := 200 }

def c9Job : Job :=
  { mkIntakeJob 5 "B9" (mkRepoState c9Change "https://skia.googlesource.com/skia") 300 200
    with buildbucketLeaseKey := 9 }

/-- Witness for claim C9: the job persisted for a build created "in the
future" still has requested strictly before created. -/
theorem intake_requested_before_created_applied :
    c9Job.requested < c9Job.created :=
  (intake_requested_before_created c9Mapping 5 c9Oracle c9Job (by decide)).1

/-! ### buildbucketCleanup (source lines 1025-1076) -/

/-- What cleanup did for one remote build: whether `UpdateBuild` and
`CancelBuilds` were called, and the error it propagates (aborting the
loop), if any. -/
structure CleanupTrace where
  updateCalled : Bool
  cancelCalled : Bool
  err : Option String
deriving DecidableEq, Repr

/-- Source, lines 1039-1073: the handling of one build returned by the
STARTED-older-than-threshold search.  A build from another bucket is
ignored; a build with no matching local job is skipped; for a terminal
local job: no update token means the remote build is canceled outright,
and a held token means one more `UpdateBuild`, whose already-finished error
is absorbed as success and whose any other failure falls back to a remote
cancel.  A non-terminal local job is left alone.  The `updErr` / `updPs`
and `cnlErr` / `cnlPs` pairs are the oracles of the `updateBuild` and
`cancelBuild` wrappers (RPC error, then pub/sub error). -/
def cleanupOneBuild (tBucket buildBucket : String) (jobQ : Option Job)
    (updErr updPs cnlErr cnlPs : Option String) : CleanupTrace :=
  if buildBucket ≠ tBucket then ⟨false, false, none⟩
  else
    match jobQ with
    | none => ⟨false, false, none⟩
    | some job =>
      if job.done then
        if job.buildbucketToken = "" then
          match cancelBuildM { v2Err := cnlErr, pubsubErr := cnlPs } with
          | some m => ⟨false, true, some ("failed to cancel build: " ++ m)⟩
          | none => ⟨false, true, none⟩
        else
          match updateBuildM { v2Err := updErr, pubsubErr := updPs } with
          | some m =>
            if strContainsSub m buildAlreadyFinishedErr then ⟨true, false, none⟩
            else
              match cancelBuildM { v2Err := cnlErr, pubsubErr := cnlPs } with
              | some m2 => ⟨true, true, some ("failed to cancel build: " ++ m2)⟩
              | none => ⟨true, true, none⟩
          | none => ⟨true, false, none⟩
      else ⟨false, false, none⟩

/-- Claim C8: for every remote build returned by the STARTED-past-threshold
search in the configured bucket: no local job means skip; a terminal local
job without a token means a direct remote cancel and never an update; a
terminal local job with a token means one update, whose already-finished
answer is success (no cancel), and any other update failure falls back to a
remote cancel. -/
theorem cleanup_terminal_job_rpc_policy (tBucket : String) (jobQ : Option Job)
    (updErr updPs cnlErr cnlPs : Option String) :
    (jobQ = none →
      cleanupOneBuild tBucket tBucket jobQ updErr updPs cnlErr cnlPs =
        ⟨false, false, none⟩) ∧
    (∀ job, jobQ = some job → job.done = true → job.buildbucketToken = "" →
      (cleanupOneBuild tBucket tBucket jobQ updErr updPs cnlErr cnlPs).cancelCalled = true ∧
      (cleanupOneBuild tBucket tBucket jobQ updErr updPs cnlErr cnlPs).updateCalled = false) ∧
    (∀ job, jobQ = some job → job.done = true → job.buildbucketToken ≠ "" →
      (cleanupOneBuild tBucket tBucket jobQ updErr updPs cnlErr cnlPs).updateCalled = true ∧
      (∀ m, updateBuildM { v2Err := updErr, pubsubErr := updPs } = some m →
        strContainsSub m buildAlreadyFinishedErr = true →
        cleanupOneBuild tBucket tBucket jobQ updErr updPs cnlErr cnlPs =
          ⟨true, false, none⟩) ∧
      (∀ m, updateBuildM { v2Err := updErr, pubsubErr := updPs } = some m →
        strContainsSub m buildAlreadyFinishedErr = false →
        (cleanupOneBuild tBucket tBucket jobQ updErr updPs cnlErr cnlPs).cancelCalled =
          true)) := by
  refine ⟨?_, ?_, ?_⟩
  · intro hq
    simp [cleanupOneBuild, hq]
  · intro job hq hdone htok
    subst hq
    cases hc : cancelBuildM { v2Err := cnlErr, pubsubErr := cnlPs } <;>
      simp [cleanupOneBuild, hdone, htok, hc]
  · intro job hq hdone htok
    subst hq
    have htok2 : (job.buildbucketToken = "") = False := by simp [htok]
    refine ⟨?_, ?_, ?_⟩
    · cases hu : updateBuildM { v2Err := updErr, pubsubErr := updPs } with
      | none => simp [cleanupOneBuild, hdone, htok2, hu]
      | some m =>
        by_cases hfin : strContainsSub m buildAlreadyFinishedErr = true
        · simp [cleanupOneBuild, hdone, htok2, hu, hfin]
        · cases hc : cancelBuildM { v2Err := cnlErr, pubsubErr := cnlPs } <;>
            simp [cleanupOneBuild, hdone, htok2, hu, hfin, hc]
    · intro m hu hfin
      simp [cleanupOneBuild, hdone, htok2, hu, hfin]
    · intro m hu hfin
      cases hc : cancelBuildM { v2Err := cnlErr, pubsubErr := cnlPs } <;>
        simp [cleanupOneBuild, hdone, htok2, hu, hfin, hc]

/-- Concrete local job for the claim C8 witness: CANCELED, empty update
token — the orphan-cleanup scenario of the spec. -/
def c8Job : Job :=
  { id := "j8", buildbucketBuildId := 77, status := .canceled, buildbucketToken := "" }

/-- Witness for claim C8: cleanup of a STARTED build whose local job is
CANCELED with an empty token calls `cancelBuild` directly and never
`updateBuild`. -/
theorem cleanup_terminal_job_rpc_policy_applied :
    (cleanupOneBuild "skia.primary" "skia.primary" (some c8Job) none none none
        none).cancelCalled = true ∧
    (cleanupOneBuild "skia.primary" "skia.primary" (some c8Job) none none none
        none).updateCalled = false :=
  (cleanup_terminal_job_rpc_policy "skia.primary" (some c8Job) none none none none).2.1
    c8Job rfl (by decide) (by decide)

end Tryjobs
